import Mathlib

/-!
Verification of the Component Tracker front-end (`src/src/App.js`).

The program is a single React component.  We shallowly embed its state
(the `useState` hooks plus the `localStorage` entry under key
`components`) as a Lean structure, and its handlers
(`handleSend`, `syncWithGoogleSheets`, `exportToCSV`, the startup cache
load) as pure state transformers.  Asynchronous effects are embedded by
passing their outcome in as a parameter (the resolved fetch result, the
current `Date.now()` value, the current `toLocaleDateString()` string)
and returning the request that would be issued as part of the result.
-/

/-- One tracked inventory item, as built by `handleSend`
(`{ id: Date.now(), name, quantity: parseInt(quantity) || 0, dateAdded }`).
`quantity` is an `Int` because JavaScript `parseInt` can return negative
values. -/
structure Component where
  id : Nat
  name : String
  quantity : Int
  dateAdded : String
deriving DecidableEq, Repr

/-- Numeric value of a hexadecimal digit character, `none` otherwise. -/
def hexDigitVal (c : Char) : Option Nat :=
  if '0' ≤ c ∧ c ≤ '9' then some (c.toNat - '0'.toNat)
  else if 'a' ≤ c ∧ c ≤ 'f' then some (c.toNat - 'a'.toNat + 10)
  else if 'A' ≤ c ∧ c ≤ 'F' then some (c.toNat - 'A'.toNat + 10)
  else none

/-- The longest prefix of the character list made of digits of the given
radix, as numeric values (step 4 of JavaScript `parseInt`: scanning stops
at the first character that is not a radix digit). -/
def takeDigits (radix : Nat) : List Char → List Nat
  | [] => []
  | c :: rest =>
    match hexDigitVal c with
    | some v => if v < radix then v :: takeDigits radix rest else []
    | none => []

/-- Model of JavaScript `parseInt(s)` with no radix argument: skip leading
whitespace, read an optional sign, detect a `0x`/`0X` prefix (radix 16,
otherwise 10), then read the longest digit prefix; `none` models `NaN`
(no digits at all). -/
def jsParseInt (s : String) : Option Int :=
  let cs := s.data.dropWhile (fun c => c.isWhitespace)
  let signAndRest : Int × List Char :=
    match cs with
    | '-' :: t => (-1, t)
    | '+' :: t => (1, t)
    | t => (1, t)
  let radixAndRest : Nat × List Char :=
    match signAndRest.2 with
    | '0' :: 'x' :: t => (16, t)
    | '0' :: 'X' :: t => (16, t)
    | t => (10, t)
  let ds := takeDigits radixAndRest.1 radixAndRest.2
  if ds = [] then none
  else some (signAndRest.1 * (ds.foldl (fun a d => a * radixAndRest.1 + d) 0 : Nat))

/-- Model of the expression `parseInt(quantity) || 0` in `handleSend`:
`NaN` (unparseable) falls back to `0`; `parseInt` returning `0` (or `-0`)
also yields `0`, which coincides with the parsed value. -/
def jsParseIntOr0 (s : String) : Int :=
  match jsParseInt s with
  | some n => n
  | none => 0

example : jsParseIntOr0 "3" = 3 := by decide
example : jsParseIntOr0 "abc" = 0 := by decide
example : jsParseIntOr0 "-5" = -5 := by decide
example : jsParseIntOr0 "3.7" = 3 := by decide
example : jsParseIntOr0 "0x1A" = 26 := by decide
example : jsParseIntOr0 " 42abc" = 42 := by decide

/-- Model of JavaScript `String.prototype.trim()`: remove whitespace
from both ends of the string. -/
def jsTrim (s : String) : String :=
  ⟨((s.data.dropWhile (fun c => c.isWhitespace)).reverse.dropWhile
      (fun c => c.isWhitespace)).reverse⟩

example : jsTrim "  R2 " = "R2" := by decide
example : jsTrim "   " = "" := by decide

/-- The string stored in `localStorage` under key `components`, seen
through `JSON.parse`: `wellFormed l` stands for a string that
`JSON.parse` accepts and that decodes to the component list `l` (the
code applies no validation beyond the parse, and both writers of the key
store `JSON.stringify` of a component list); `malformed` stands for any
string `JSON.parse` throws on. -/
inductive CacheBlob where
  | wellFormed : List Component → CacheBlob
  | malformed : CacheBlob
deriving DecidableEq, Repr

/-- `JSON.parse` on a stored blob: yields the decoded list or throws a
`SyntaxError` (modelled as `Except.error`). -/
def jsonParse : CacheBlob → Except String (List Component)
  | .wellFormed l => .ok l
  | .malformed => .error "SyntaxError"

/-- A JSON leaf value, as much of JSON as the POST body of `handleSend`
needs. -/
inductive JVal where
  | str : String → JVal
  | int : Int → JVal
deriving DecidableEq, Repr

/-- The JSON object sent as body of the POST request in `handleSend`
(`JSON.stringify({ name: ..., quantity: ..., dateAdded: ... })`),
as an ordered list of key/value pairs. -/
def postBody (c : Component) : List (String × JVal) :=
  [("name", JVal.str c.name), ("quantity", JVal.int c.quantity),
   ("dateAdded", JVal.str c.dateAdded)]

/-- The state of the `ComponentTracker` component: the seven `useState`
hooks, plus the `localStorage` entry under key `components` (`none` when
the key is absent). -/
structure AppState where
  componentName : String
  quantity : String
  components : List Component
  showList : Bool
  isSending : Bool
  isLoading : Bool
  isSyncing : Bool
  cache : Option CacheBlob
deriving DecidableEq, Repr

/-- The mount state of the component: every `useState` initial value
(`''`, `''`, `[]`, `false`, `false`, `false`, `false`), over a given
`localStorage` content. -/
def initState (cache : Option CacheBlob) : AppState :=
  { componentName := ""
    quantity := ""
    components := []
    showList := false
    isSending := false
    isLoading := false
    isSyncing := false
    cache := cache }

/-- The synchronous part of the mount `useEffect` (App.js lines 17–29):
read `localStorage.getItem('components')`; when present, `JSON.parse` it
inside `try`/`catch`, adopting the parsed list on success and leaving
`components` at its initial value on a parse error (the error is only
logged); in every branch `isLoading` is set to `false`.  A total
function: no exception escapes. -/
def loadCache (s : AppState) : AppState :=
  match s.cache with
  | some blob =>
    match jsonParse blob with
    | .ok l => { s with components := l, isLoading := false }
    | .error _ => { s with isLoading := false }
  | none => { s with isLoading := false }

/-- The outcome of the background `fetch(SHEET_URL)` together with
`response.json()`: `success d` when both resolve, where `d = none`
models a `null` payload and `d = some l` a JSON array of records;
`failure` when either rejects (network error or unparseable body). -/
inductive FetchResult where
  | success : Option (List Component) → FetchResult
  | failure : FetchResult
deriving DecidableEq, Repr

/-- `syncWithGoogleSheets` (App.js lines 32–46) after its awaited fetch
settles: on success, `setComponents(data || [])` and
`localStorage.setItem('components', JSON.stringify(data || []))`;
on failure the `catch` only logs and the state is untouched; the
`finally` clears `isSyncing` in both cases. -/
def syncWithGoogleSheets (res : FetchResult) (s : AppState) : AppState :=
  match res with
  | .success data =>
    { s with
      components := data.getD []
      cache := some (.wellFormed (data.getD []))
      isSyncing := false }
  | .failure => { s with isSyncing := false }

/-- `handleSend` (App.js lines 74–116), run to completion, with the
ambient clock passed in (`now` for `Date.now()`, `today` for
`new Date().toLocaleDateString()`).  Guard as in the source:
`componentName.trim() && quantity.trim() && !isSending` (a JavaScript
string is truthy iff non-empty).  When the guard passes, the new record
is appended to `components`, the updated list is written to the cache,
both form fields are cleared, and the POST body pushed to the sheet is
returned (`isSending` is set at entry and cleared at exit, so it ends
`false`).  When the guard fails nothing happens and no request is issued
(`none`). -/
def handleSend (now : Nat) (today : String) (s : AppState) :
    AppState × Option (List (String × JVal)) :=
  if jsTrim s.componentName ≠ "" ∧ jsTrim s.quantity ≠ "" ∧ s.isSending = false then
    let newComponent : Component :=
      { id := now
        name := jsTrim s.componentName
        quantity := jsParseIntOr0 s.quantity
        dateAdded := today }
    let updatedComponents := s.components ++ [newComponent]
    ({ s with
        componentName := ""
        quantity := ""
        components := updatedComponents
        cache := some (.wellFormed updatedComponents)
        isSending := false },
     some (postBody newComponent))
  else (s, none)

/-- The CSV header row of `exportToCSV` (`headers.join(',')`). -/
def csvHeader : String := "Component Name/Part No,Quantity,Date Added"

/-- One CSV data row of `exportToCSV`:
`` `"${comp.name}",${comp.quantity},"${comp.dateAdded}"` ``. -/
def csvRow (comp : Component) : String :=
  "\"" ++ comp.name ++ "\"," ++ toString comp.quantity ++ ",\"" ++ comp.dateAdded ++ "\""

/-- `exportToCSV` (App.js lines 51–72): on an empty list, `alert` and
return with no download (`none`); otherwise the downloaded blob's
content, `[headers.join(','), ...rows].join('\n')`. -/
def exportToCSV (components : List Component) : Option String :=
  if components.length = 0 then none
  else some (String.intercalate "\n" (csvHeader :: components.map csvRow))

example :
    exportToCSV [⟨1, "R1", 5, "1/1/24"⟩] =
      some "Component Name/Part No,Quantity,Date Added\n\"R1\",5,\"1/1/24\"" := by
  decide

/-- A user interaction that fills in the two form fields and clicks
`Send`, at a given clock reading. -/
structure SendEvent where
  now : Nat
  today : String
  nameInput : String
  qtyInput : String
deriving DecidableEq, Repr

/-- The records created by a sequence of form submissions within one
session: each event types into the two fields and invokes `handleSend`;
the component appended by an accepted submission (the suffix of the new
list past the old length) is collected. -/
def sessionCreated : AppState → List SendEvent → List Component
  | _, [] => []
  | s, e :: rest =>
    let s1 := { s with componentName := e.nameInput, quantity := e.qtyInput }
    let s2 := (handleSend e.now e.today s1).1
    s2.components.drop s1.components.length ++ sessionCreated s2 rest

example :
    (sessionCreated (initState none)
        [⟨100, "1/1/24", "a", "1"⟩, ⟨200, "1/1/24", "b", "2"⟩]).map Component.id
      = [100, 200] := by decide

/-- The record `handleSend` builds from state `s` at clock `(now, today)`. -/
def sentComponent (now : Nat) (today : String) (s : AppState) : Component :=
  { id := now
    name := jsTrim s.componentName
    quantity := jsParseIntOr0 s.quantity
    dateAdded := today }

/-- Unfolding of `handleSend` when the guard passes. -/
theorem handleSend_of_pos (now : Nat) (today : String) (s : AppState)
    (hc : jsTrim s.componentName ≠ "" ∧ jsTrim s.quantity ≠ "" ∧ s.isSending = false) :
    handleSend now today s =
      ({ s with
          componentName := ""
          quantity := ""
          components := s.components ++ [sentComponent now today s]
          cache := some (.wellFormed (s.components ++ [sentComponent now today s]))
          isSending := false },
       some (postBody (sentComponent now today s))) := by
  rw [handleSend, if_pos hc]
  rfl

/-- Unfolding of `handleSend` when the guard fails. -/
theorem handleSend_of_neg (now : Nat) (today : String) (s : AppState)
    (hc : ¬(jsTrim s.componentName ≠ "" ∧ jsTrim s.quantity ≠ "" ∧ s.isSending = false)) :
    handleSend now today s = (s, none) := by
  rw [handleSend, if_neg hc]

/-- Every identifier created in a session is one of the session's
`Date.now()` readings, in order: the created ids form a sublist of the
event timestamps. -/
theorem sessionCreated_ids_sublist (es : List SendEvent) (s : AppState) :
    List.Sublist ((sessionCreated s es).map Component.id)
      (es.map SendEvent.now) := by
  induction es generalizing s with
  | nil => simp [sessionCreated]
  | cons e rest ih =>
    rw [sessionCreated]
    by_cases hc : jsTrim e.nameInput ≠ "" ∧ jsTrim e.qtyInput ≠ "" ∧
        s.isSending = false
    · rw [handleSend_of_pos e.now e.today
        { s with componentName := e.nameInput, quantity := e.qtyInput } hc]
      simp only [List.map_cons, List.map_append, List.drop_left]
      simpa [sentComponent] using
        List.Sublist.cons₂ e.now (ih _)
    · rw [handleSend_of_neg e.now e.today
        { s with componentName := e.nameInput, quantity := e.qtyInput } hc]
      simp only [List.map_cons, List.drop_length, List.nil_append]
      exact List.Sublist.cons e.now (ih _)

/-- C1: In every state whose trimmed name field and trimmed quantity
field are non-empty and whose `isSending` flag is `false`, `handleSend`
appends exactly one new record — trimmed name, parsed quantity, today's
date — to the in-memory components list, overwrites the persisted cache
under key `components` with the JSON encoding of that extended list
(one record appended), and resets both form fields to the empty
string. -/
theorem handleSend_appends_one_record (now : Nat) (today : String) (s : AppState)
    (h1 : jsTrim s.componentName ≠ "") (h2 : jsTrim s.quantity ≠ "")
    (h3 : s.isSending = false) :
    ((handleSend now today s).1).components =
      s.components ++ [sentComponent now today s] ∧
    ((handleSend now today s).1).cache =
      some (.wellFormed (s.components ++ [sentComponent now today s])) ∧
    ((handleSend now today s).1).componentName = "" ∧
    ((handleSend now today s).1).quantity = "" := by
  rw [handleSend_of_pos now today s ⟨h1, h2, h3⟩]
  exact ⟨rfl, rfl, rfl, rfl⟩

/-- Witness for C1: submitting name `"R2"`, quantity `"3"` on day
`"1/1/24"` at clock `1000` from a fresh state (the created record is
`⟨1000, "R2", 3, "1/1/24"⟩`). -/
theorem handleSend_appends_one_record_witness :
    jsTrim "R2" ≠ "" ∧ jsTrim "3" ≠ "" ∧
    (let s0 : AppState :=
      { initState none with componentName := "R2", quantity := "3" }
     ((handleSend 1000 "1/1/24" s0).1).components =
        s0.components ++ [sentComponent 1000 "1/1/24" s0] ∧
      ((handleSend 1000 "1/1/24" s0).1).cache =
        some (.wellFormed (s0.components ++ [sentComponent 1000 "1/1/24" s0])) ∧
      ((handleSend 1000 "1/1/24" s0).1).componentName = "" ∧
      ((handleSend 1000 "1/1/24" s0).1).quantity = "") :=
  ⟨by decide, by decide,
    handleSend_appends_one_record 1000 "1/1/24"
      { initState none with componentName := "R2", quantity := "3" }
      (by decide) (by decide) rfl⟩

/-- C2: whatever the current local state — including one already holding
an optimistic add made after the fetch was issued — a successful
background fetch resolving with payload `data` replaces the in-memory
list and the persisted cache entirely with the payload (with the empty
list standing in when the payload is `null`). -/
theorem sync_success_replaces_everything (s : AppState)
    (data : Option (List Component)) :
    (syncWithGoogleSheets (.success data) s).components = data.getD [] ∧
    (syncWithGoogleSheets (.success data) s).cache =
      some (.wellFormed (data.getD [])) :=
  ⟨rfl, rfl⟩

/-- C3: a failing background fetch (network error or unparseable
response, both landing in the `catch`) leaves the in-memory list and the
persisted cache unchanged; `syncWithGoogleSheets` is a total function,
so the error never escapes, and the only effect of the `catch` branch is
the log line. -/
theorem sync_failure_preserves_state (s : AppState) :
    (syncWithGoogleSheets .failure s).components = s.components ∧
    (syncWithGoogleSheets .failure s).cache = s.cache :=
  ⟨rfl, rfl⟩

/-- Counterexample to C4 as stated: the quantity string `"-5"` passes
the form validation (its trim is non-empty), yet the stored quantity is
`-5`, a negative integer — `parseInt('-5') || 0` evaluates to `-5`. -/
theorem handleSend_stores_negative_quantity :
    (((handleSend 0 "1/1/24"
        { initState none with componentName := "R", quantity := "-5" }).1).components.map
      Component.quantity) = [-5] ∧ ¬((0 : Int) ≤ -5) := by
  decide

/-- C4 amended: for every accepted quantity string, the stored quantity
is the integer `parseInt(quantity) || 0` — possibly negative — and it is
`0` whenever the string is unparseable as an integer (`parseInt`
returning `NaN`). -/
theorem handleSend_quantity_from_parseInt (now : Nat) (today : String)
    (s : AppState)
    (h1 : jsTrim s.componentName ≠ "") (h2 : jsTrim s.quantity ≠ "")
    (h3 : s.isSending = false) :
    (((handleSend now today s).1).components.map Component.quantity =
      s.components.map Component.quantity ++ [jsParseIntOr0 s.quantity]) ∧
    (jsParseInt s.quantity = none → jsParseIntOr0 s.quantity = 0) ∧
    (∀ n : Int, jsParseInt s.quantity = some n → jsParseIntOr0 s.quantity = n) := by
  refine ⟨?_, ?_, ?_⟩
  · rw [handleSend_of_pos now today s ⟨h1, h2, h3⟩]
    simp [sentComponent]
  · intro h
    simp [jsParseIntOr0, h]
  · intro n h
    simp [jsParseIntOr0, h]

/-- Witness for C4 amended: submitting quantity `"abc"` (unparseable)
stores quantity `0`. -/
theorem handleSend_quantity_from_parseInt_witness :
    jsTrim "R" ≠ "" ∧ jsTrim "abc" ≠ "" ∧ jsParseInt "abc" = none ∧
    (let s0 : AppState :=
      { initState none with componentName := "R", quantity := "abc" }
     (((handleSend 7 "1/1/24" s0).1).components.map Component.quantity =
        s0.components.map Component.quantity ++ [jsParseIntOr0 s0.quantity]) ∧
      (jsParseInt s0.quantity = none → jsParseIntOr0 s0.quantity = 0) ∧
      (∀ n : Int, jsParseInt s0.quantity = some n → jsParseIntOr0 s0.quantity = n)) :=
  ⟨by decide, by decide, by decide,
    handleSend_quantity_from_parseInt 7 "1/1/24"
      { initState none with componentName := "R", quantity := "abc" }
      (by decide) (by decide) rfl⟩

/-- C5: whenever the trimmed name is empty, or the trimmed quantity is
empty, or a send is already in flight (`isSending = true`), `handleSend`
is a no-op: the entire state — components list, cache, form fields,
flags — is returned unchanged and no POST request is issued. -/
theorem handleSend_rejected_noop (now : Nat) (today : String) (s : AppState)
    (h : jsTrim s.componentName = "" ∨ jsTrim s.quantity = "" ∨
      s.isSending = true) :
    handleSend now today s = (s, none) := by
  apply handleSend_of_neg
  rcases h with h | h | h
  · exact fun hc => hc.1 h
  · exact fun hc => hc.2.1 h
  · exact fun hc => by rw [h] at hc; exact Bool.noConfusion hc.2.2

/-- Witness for C5: submitting with an empty (whitespace-only) name
field changes nothing and sends nothing. -/
theorem handleSend_rejected_noop_witness :
    (jsTrim "  " = "" ∨ jsTrim "3" = "" ∨
      ({ initState none with componentName := "  ", quantity := "3" } : AppState).isSending = true) ∧
    handleSend 42 "1/1/24"
        { initState none with componentName := "  ", quantity := "3" } =
      ({ initState none with componentName := "  ", quantity := "3" }, none) :=
  ⟨Or.inl (by decide),
    handleSend_rejected_noop 42 "1/1/24"
      { initState none with componentName := "  ", quantity := "3" }
      (Or.inl (by decide))⟩

/-- Counterexample to C6 as stated: two accepted submissions within the
same millisecond read the same `Date.now()` value (`100`), so the two
records created in the session carry identical identifiers — nothing in
the code breaks the tie. -/
theorem sessionCreated_duplicate_ids :
    ((sessionCreated (initState none)
        [⟨100, "1/1/24", "a", "1"⟩, ⟨100, "1/1/24", "b", "2"⟩]).map
      Component.id) = [100, 100] ∧
    ¬((sessionCreated (initState none)
        [⟨100, "1/1/24", "a", "1"⟩, ⟨100, "1/1/24", "b", "2"⟩]).map
      Component.id).Nodup := by
  refine ⟨by decide, ?_⟩
  intro h
  rw [show ((sessionCreated (initState none)
      [⟨100, "1/1/24", "a", "1"⟩, ⟨100, "1/1/24", "b", "2"⟩]).map
      Component.id) = [100, 100] from by decide] at h
  simp at h

/-- C6 amended: the identifiers of the records created in a session are
pairwise distinct provided the `Date.now()` readings of the submissions
are pairwise distinct (each identifier is the creation timestamp; two
creations within the same millisecond share an identifier). -/
theorem sessionCreated_ids_distinct (s : AppState) (es : List SendEvent)
    (h : (es.map SendEvent.now).Nodup) :
    ((sessionCreated s es).map Component.id).Nodup :=
  (sessionCreated_ids_sublist es s).nodup h

/-- Witness for C6 amended: two submissions one millisecond apart
create records with ids `100` and `101`. -/
theorem sessionCreated_ids_distinct_witness :
    (([⟨100, "1/1/24", "a", "1"⟩, ⟨101, "1/1/24", "b", "2"⟩] :
        List SendEvent).map SendEvent.now).Nodup ∧
    ((sessionCreated (initState none)
        [⟨100, "1/1/24", "a", "1"⟩, ⟨101, "1/1/24", "b", "2"⟩]).map
      Component.id).Nodup :=
  ⟨by decide,
    sessionCreated_ids_distinct (initState none)
      [⟨100, "1/1/24", "a", "1"⟩, ⟨101, "1/1/24", "b", "2"⟩] (by decide)⟩

/-- The CSV row format stated by the spec for a record:
`"<name>",<quantity>,"<dateAdded>"`. -/
def specCsvRow (name : String) (quantity : Int) (dateAdded : String) : String :=
  "\"" ++ name ++ "\"," ++ toString quantity ++ ",\"" ++ dateAdded ++ "\""

/-- The CSV header row stated by the spec. -/
def specCsvHeader : String := "Component Name/Part No,Quantity,Date Added"

/-- C7: exporting an empty list raises the alert and downloads nothing
(`none`); exporting a non-empty list downloads a CSV whose first line is
exactly `Component Name/Part No,Quantity,Date Added` and which then has,
for each record in list order, the line `"<name>",<quantity>,"<dateAdded>"`
(the spec-side format `specCsvRow`, stated independently of the code's
`csvRow`). -/
theorem exportToCSV_format (cs : List Component) (h : cs ≠ []) :
    exportToCSV [] = none ∧
    exportToCSV cs =
      some (String.intercalate "\n"
        (specCsvHeader :: cs.map (fun c => specCsvRow c.name c.quantity c.dateAdded))) := by
  constructor
  · rfl
  · rw [exportToCSV, if_neg (by simpa using h)]
    rfl

/-- Witness for C7: exporting the single record `⟨1, "R1", 5, "1/1/24"⟩`
produces the header line followed by `"R1",5,"1/1/24"`. -/
theorem exportToCSV_format_witness :
    ([(⟨1, "R1", 5, "1/1/24"⟩ : Component)] ≠ []) ∧
    exportToCSV [] = none ∧
    exportToCSV [(⟨1, "R1", 5, "1/1/24"⟩ : Component)] =
      some (String.intercalate "\n"
        (specCsvHeader ::
          [(⟨1, "R1", 5, "1/1/24"⟩ : Component)].map
            (fun c => specCsvRow c.name c.quantity c.dateAdded))) :=
  ⟨by decide, exportToCSV_format [⟨1, "R1", 5, "1/1/24"⟩] (by decide)⟩

/-- C8: the startup cache load adopts the decoded list when the stored
blob is well-formed JSON, and leaves the components list empty when the
key is absent or the blob is malformed; `loadCache` is total (the
`JSON.parse` failure is caught inside it), so a malformed blob never
surfaces an error. -/
theorem loadCache_wellformed_or_empty (l : List Component) :
    (loadCache (initState (some (.wellFormed l)))).components = l ∧
    (loadCache (initState none)).components = [] ∧
    (loadCache (initState (some .malformed))).components = [] :=
  ⟨rfl, rfl, rfl⟩

/-- C9: after each completed list-mutating operation — a successful
background fetch, or a submit that passes validation — the persisted
cache under key `components` holds exactly the JSON encoding of the
in-memory components list: both writers store `JSON.stringify` of the
very list they just set. -/
theorem cache_matches_components_after_mutation (s t : AppState)
    (data : Option (List Component)) (now : Nat) (today : String)
    (h1 : jsTrim t.componentName ≠ "") (h2 : jsTrim t.quantity ≠ "")
    (h3 : t.isSending = false) :
    (syncWithGoogleSheets (.success data) s).cache =
      some (.wellFormed (syncWithGoogleSheets (.success data) s).components) ∧
    ((handleSend now today t).1).cache =
      some (.wellFormed ((handleSend now today t).1).components) := by
  constructor
  · rfl
  · rw [handleSend_of_pos now today t ⟨h1, h2, h3⟩]

/-- Witness for C9: a sync delivering one remote record over an
arbitrary state, and a submit of `("R2", "3")` from a fresh state, both
leave cache and list in agreement. -/
theorem cache_matches_components_after_mutation_witness :
    jsTrim "R2" ≠ "" ∧ jsTrim "3" ≠ "" ∧
    (let t0 : AppState :=
      { initState none with componentName := "R2", quantity := "3" }
     (syncWithGoogleSheets (.success (some [⟨1, "R1", 5, "1/1/24"⟩]))
          (initState none)).cache =
        some (.wellFormed (syncWithGoogleSheets
          (.success (some [⟨1, "R1", 5, "1/1/24"⟩])) (initState none)).components) ∧
      ((handleSend 1000 "1/1/24" t0).1).cache =
        some (.wellFormed ((handleSend 1000 "1/1/24" t0).1).components)) :=
  ⟨by decide, by decide,
    cache_matches_components_after_mutation (initState none)
      { initState none with componentName := "R2", quantity := "3" }
      (some [⟨1, "R1", 5, "1/1/24"⟩]) 1000 "1/1/24"
      (by decide) (by decide) rfl⟩

/-- C10: an accepted submission issues exactly one POST whose JSON body
has exactly the keys `name`, `quantity`, `dateAdded` — in particular the
locally generated `id` is never transmitted — with the values of the
record just created. -/
theorem handleSend_post_has_no_id (now : Nat) (today : String) (s : AppState)
    (h1 : jsTrim s.componentName ≠ "") (h2 : jsTrim s.quantity ≠ "")
    (h3 : s.isSending = false) :
    (handleSend now today s).2 = some (postBody (sentComponent now today s)) ∧
    (postBody (sentComponent now today s)).map Prod.fst =
      ["name", "quantity", "dateAdded"] ∧
    "id" ∉ (postBody (sentComponent now today s)).map Prod.fst := by
  refine ⟨?_, rfl, by simp [postBody]⟩
  rw [handleSend_of_pos now today s ⟨h1, h2, h3⟩]

/-- Witness for C10: submitting `("R2", "3")` posts the body
`{name: "R2", quantity: 3, dateAdded: "1/1/24"}` and no `id` key. -/
theorem handleSend_post_has_no_id_witness :
    jsTrim "R2" ≠ "" ∧ jsTrim "3" ≠ "" ∧
    (let s0 : AppState :=
      { initState none with componentName := "R2", quantity := "3" }
     (handleSend 1000 "1/1/24" s0).2 =
        some (postBody (sentComponent 1000 "1/1/24" s0)) ∧
      (postBody (sentComponent 1000 "1/1/24" s0)).map Prod.fst =
        ["name", "quantity", "dateAdded"] ∧
      "id" ∉ (postBody (sentComponent 1000 "1/1/24" s0)).map Prod.fst) :=
  ⟨by decide, by decide,
    handleSend_post_has_no_id 1000 "1/1/24"
      { initState none with componentName := "R2", quantity := "3" }
      (by decide) (by decide) rfl⟩
